import Mathlib

/-!
Verification development for the Nexus Commander draft core.

Shallow embedding of `src/components/drafting_assistant.py` and
`src/components/draft_master_game.py` (plus the pieces of
`src/core/data_ingestion.py` the core consumes).  Python floats are
modelled as rationals (`ℚ`), Python dicts/defaultdicts as association
lists with explicit default values, and Python exceptions as `Option` /
explicit `crash` outcomes.  Presentational-only data (numeric string
formatting, ids, player names, timestamps) is modelled up to a faithful
placeholder where noted; no claim depends on it.
-/

namespace NexusCommander

abbrev Champ := String

/-! ### Dictionary helpers (Python dict / defaultdict semantics)

`setA` mirrors `d[k] = v`: it updates an existing key in place and
appends a fresh key at the end, so folding over the resulting list of
entries visits keys in Python's insertion order.  `getN` mirrors
`defaultdict(int)` reads (default 0). -/

def setA {κ α : Type} [BEq κ] : List (κ × α) → κ → α → List (κ × α)
  | [], k, v => [(k, v)]
  | (k', v') :: rest, k, v =>
      if k' == k then (k, v) :: rest else (k', v') :: setA rest k v

def getN {κ : Type} [BEq κ] (m : List (κ × Nat)) (k : κ) : Nat :=
  (m.lookup k).getD 0

def bumpN {κ : Type} [BEq κ] (m : List (κ × Nat)) (k : κ) : List (κ × Nat) :=
  setA m k (getN m k + 1)

/-- All unordered pairs of a list, in the order of the Python double loop
`for i, x in enumerate(l): for y in l[i+1:]`. -/
def pairsOf {α : Type} : List α → List (α × α)
  | [] => []
  | x :: xs => (xs.map (fun y => (x, y))) ++ pairsOf xs

/-- `np.mean` over a rational list (sum divided by length). -/
def meanQ (l : List ℚ) : ℚ := l.sum / (l.length : ℚ)

/-- Stands in for Python's numeric string formatting (percent f-strings);
the rendered text is presentational only and no claim depends on it. -/
def fmtQ (q : ℚ) : String := toString q

/-! ### Data model consumed from `data_ingestion.py` -/

/-- One entry of `DraftData.picks` / `DraftData.sequence`:
a dict with keys `team_id`, `type`, `champion` (other keys unused by the core). -/
structure PickEntry where
  team_id : String
  ptype : String
  champion : Champ
deriving DecidableEq, Repr

structure DraftData where
  picks : List PickEntry
  sequence : List PickEntry
deriving DecidableEq, Repr

/-- `DraftData.get_team_picks`. -/
def DraftData.get_team_picks (d : DraftData) (team_id : String) : List Champ :=
  (d.picks.filter (fun p => p.team_id == team_id)).map (·.champion)

/-- The slice of `TeamStats` the core reads (`team_id`, `win`). -/
structure TeamStat where
  team_id : String
  win : Bool
deriving DecidableEq, Repr

/-- One parsed match as consumed by the core: the metadata fields actually
read (`match_id`, `team1_id`), the draft, and per-side stats.  Other
metadata (tournament, team names, timeline, players) is presentational. -/
structure MatchRec where
  match_id : String
  team1_id : String
  draft : DraftData
  team_stats : List TeamStat
deriving DecidableEq, Repr

/-! ### `ChampionGraph` (drafting_assistant.py) -/

/-- The four mappings of `ChampionGraph`.  `synergies` and `counters`
hold only the explicitly assigned entries; reads fall back to the
defaultdict / `.get` defaults (0 for synergy, 0.5 for counter, 0.5 for
win rate, 0 for pick rate) exactly as at the Python call sites. -/
structure ChampionGraph where
  synergies : List ((Champ × Champ) × ℚ)
  counters : List ((Champ × Champ) × ℚ)
  win_rates : List (Champ × ℚ)
  pick_rates : List (Champ × ℚ)
deriving DecidableEq, Repr

def ChampionGraph.synergy (g : ChampionGraph) (a b : Champ) : ℚ :=
  ((g.synergies.lookup (a, b)).getD 0)

def ChampionGraph.counterGet (g : ChampionGraph) (a b : Champ) (d : ℚ) : ℚ :=
  ((g.counters.lookup (a, b)).getD d)

def ChampionGraph.winRate (g : ChampionGraph) (c : Champ) : ℚ :=
  ((g.win_rates.lookup c).getD (1/2))

def ChampionGraph.pickRate (g : ChampionGraph) (c : Champ) : ℚ :=
  ((g.pick_rates.lookup c).getD 0)

/-- `tuple(sorted([champ1, champ2]))`. -/
def sortPair (a b : Champ) : Champ × Champ := if b < a then (b, a) else (a, b)

/-- The per-corpus counting state of `ChampionGraph.build_from_matches`. -/
structure BuildCounts where
  teammate_pairs : List ((Champ × Champ) × Nat)
  teammate_wins : List ((Champ × Champ) × Nat)
  matchup_counts : List ((Champ × Champ) × Nat)
  matchup_wins : List ((Champ × Champ) × Nat)
  champion_games : List (Champ × Nat)
  champion_wins : List (Champ × Nat)

def BuildCounts.empty : BuildCounts := ⟨[], [], [], [], [], []⟩

/-- The body of the `for team_stat in match['team_stats']` loop. -/
def processTeam (draft : DraftData) (bc : BuildCounts) (ts : TeamStat) : BuildCounts :=
  let team_picks := draft.get_team_picks ts.team_id
  let won := ts.win
  -- update win rate counts
  let bc1 := team_picks.foldl
    (fun acc champ =>
      { acc with
        champion_games := bumpN acc.champion_games champ
        champion_wins := if won then bumpN acc.champion_wins champ else acc.champion_wins })
    bc
  -- track teammate synergies
  let bc2 := (pairsOf team_picks).foldl
    (fun acc cc =>
      let pair := sortPair cc.1 cc.2
      { acc with
        teammate_pairs := bumpN acc.teammate_pairs pair
        teammate_wins := if won then bumpN acc.teammate_wins pair else acc.teammate_wins })
    bc1
  -- track matchups against opponents
  let opponent_champs :=
    ((draft.picks.filter (fun p => p.team_id != ts.team_id && p.ptype == "pick")).map (·.champion))
  let bc3 := team_picks.foldl
    (fun acc my_champ =>
      opponent_champs.foldl
        (fun acc2 opp_champ =>
          { acc2 with
            matchup_counts := bumpN acc2.matchup_counts (my_champ, opp_champ)
            matchup_wins := if won then bumpN acc2.matchup_wins (my_champ, opp_champ) else acc2.matchup_wins })
        acc)
    bc2
  bc3

/-- `ChampionGraph.build_from_matches`, called (as in `DraftingAssistant.__init__`)
on a freshly constructed graph.  Faithful to the statement order of the
source: the synergy table is filled BEFORE `win_rates` is populated, so
the `expected` win rate read inside the synergy loop sees only the
defaultdict default 0.5 (`g0`, the fresh graph). -/
def build_from_matches (parsed_matches : List MatchRec) : ChampionGraph :=
  let counts := parsed_matches.foldl (fun bc m => m.team_stats.foldl (processTeam m.draft) bc)
    BuildCounts.empty
  let g0 : ChampionGraph := ⟨[], [], [], []⟩
  -- calculate synergy scores (uses g0.winRate: win_rates not yet written)
  let synergies := counts.teammate_pairs.foldl
    (fun acc entry =>
      let c1 := entry.1.1
      let c2 := entry.1.2
      let count := entry.2
      if 3 ≤ count then
        let win_rate : ℚ := (getN counts.teammate_wins (c1, c2) : ℚ) / (count : ℚ)
        let expected : ℚ := (g0.winRate c1 + g0.winRate c2) / 2
        let synergy := win_rate - expected
        setA (setA acc (c1, c2) synergy) (c2, c1) synergy
      else acc)
    []
  -- calculate counter scores
  let counters := counts.matchup_counts.foldl
    (fun acc entry =>
      let count := entry.2
      if 3 ≤ count then
        let win_rate : ℚ := (getN counts.matchup_wins entry.1 : ℚ) / (count : ℚ)
        setA acc entry.1 win_rate
      else acc)
    []
  -- calculate win rates
  let win_rates := counts.champion_games.foldl
    (fun acc entry =>
      if 0 < entry.2 then
        setA acc entry.1 ((getN counts.champion_wins entry.1 : ℚ) / (entry.2 : ℚ))
      else acc)
    []
  -- calculate pick rates
  let total_games := parsed_matches.length
  let pick_rates := counts.champion_games.foldl
    (fun acc entry => setA acc entry.1 ((entry.2 : ℚ) / (total_games : ℚ)))
    []
  ⟨synergies, counters, win_rates, pick_rates⟩

/-- `ChampionGraph.get_champion_power`. -/
def get_champion_power (g : ChampionGraph) (c : Champ) : ℚ :=
  g.winRate c + min (g.pickRate c * (2/10)) (1/10)

/-- `ChampionGraph.get_team_synergy`. -/
def get_team_synergy (g : ChampionGraph) (champions : List Champ) : ℚ :=
  if champions.length ≤ 1 then 0
  else
    let ps := pairsOf champions
    let total_synergy := (ps.map (fun cc => g.synergy cc.1 cc.2)).sum
    let pairs := ps.length
    if 0 < pairs then total_synergy / (pairs : ℚ) else 0

/-- `ChampionGraph.get_counter_score`. -/
def get_counter_score (g : ChampionGraph) (mine theirs : List Champ) : ℚ :=
  if mine = [] ∨ theirs = [] then 0
  else
    let total_score :=
      (mine.map (fun m => (theirs.map (fun t => g.counterGet m t (1/2) - 1/2)).sum)).sum
    let matchups := mine.length * theirs.length
    if 0 < matchups then total_score / (matchups : ℚ) else 0

/-! ### `DraftState`, `DraftRecommendation`, `DraftPredictor` -/

structure DraftState where
  team1_picks : List Champ
  team1_bans : List Champ
  team2_picks : List Champ
  team2_bans : List Champ
  current_phase : String
  turn : Nat
deriving DecidableEq, Repr

structure DraftRecommendation where
  champion : Champ
  win_rate_impact : ℚ
  reasoning : List String
  synergies : List String
  counters : List String
  priority : String
  confidence : ℚ
deriving DecidableEq, Repr

/-- The two probabilities plus the `factors` sub-dict returned by
`DraftPredictor.predict_win_probability`. -/
structure WinProbs where
  team1 : ℚ
  team2 : ℚ
  team1_power : ℚ
  team2_power : ℚ
  team1_synergy : ℚ
  team2_synergy : ℚ
  counter_advantage : ℚ
deriving DecidableEq, Repr

/-- The "normalize to probabilities" block of
`DraftPredictor.predict_win_probability`: divide by the sum when it is
positive, otherwise fall back to 0.5/0.5. -/
def normalizeProbs (team1_score team2_score : ℚ) : ℚ × ℚ :=
  let total := team1_score + team2_score
  if 0 < total then (team1_score / total, team2_score / total)
  else (1/2, 1/2)

/-- `DraftPredictor.predict_win_probability`. -/
def predict_win_probability (g : ChampionGraph) (draft_state : DraftState) : WinProbs :=
  let team1_power :=
    if draft_state.team1_picks = [] then (1/2 : ℚ)
    else meanQ (draft_state.team1_picks.map (get_champion_power g))
  let team2_power :=
    if draft_state.team2_picks = [] then (1/2 : ℚ)
    else meanQ (draft_state.team2_picks.map (get_champion_power g))
  let team1_synergy := get_team_synergy g draft_state.team1_picks
  let team2_synergy := get_team_synergy g draft_state.team2_picks
  let counter_advantage := get_counter_score g draft_state.team1_picks draft_state.team2_picks
  let team1_score := team1_power + team1_synergy + counter_advantage
  let team2_score := team2_power + team2_synergy - counter_advantage
  let probs := normalizeProbs team1_score team2_score
  ⟨probs.1, probs.2, team1_power, team2_power, team1_synergy, team2_synergy, counter_advantage⟩

/-- `list.sort(key=lambda x: x.win_rate_impact, reverse=True)`:
stable descending sort on the impact field. -/
def sortByImpact (l : List DraftRecommendation) : List DraftRecommendation :=
  l.mergeSort (fun a b => b.win_rate_impact ≤ a.win_rate_impact)

/-- `DraftPredictor.recommend_pick`. -/
def recommend_pick (g : ChampionGraph) (draft_state : DraftState) (team : Nat)
    (available_champions : List Champ) : List DraftRecommendation :=
  let my_picks := if team = 1 then draft_state.team1_picks else draft_state.team2_picks
  let opp_picks := if team = 1 then draft_state.team2_picks else draft_state.team1_picks
  let recommendations := (available_champions.take 30).map (fun champion =>
    let test_picks := my_picks ++ [champion]
    let synergy_score := get_team_synergy g test_picks
    let counter_score := get_counter_score g test_picks opp_picks
    let champion_power := get_champion_power g champion
    let total_score := champion_power + synergy_score * (3/10) + counter_score * (4/10)
    let synergies := (my_picks.filter (fun m => (5/100 : ℚ) < g.synergy champion m)).map
      (fun m => m ++ " (+" ++ fmtQ (g.synergy champion m) ++ ")")
    let counters := (opp_picks.filter (fun o => (6/10 : ℚ) < g.counterGet champion o (1/2))).map
      (fun o => o ++ " (" ++ fmtQ (g.counterGet champion o (1/2)) ++ " WR)")
    let reasoning :=
      (if synergies ≠ [] then ["Strong synergy with " ++ String.intercalate ", " (synergies.take 2)] else [])
      ++ (if counters ≠ [] then ["Counters " ++ String.intercalate ", " (counters.take 2)] else [])
      ++ (if (52/100 : ℚ) < champion_power then ["Strong meta pick (" ++ fmtQ champion_power ++ " WR)"] else [])
    let priority :=
      if (65/100 : ℚ) < total_score then "critical"
      else if (55/100 : ℚ) < total_score then "high"
      else if (1/2 : ℚ) < total_score then "medium"
      else "low"
    { champion := champion
      win_rate_impact := total_score - 1/2
      reasoning := if reasoning = [] then ["Solid option"] else reasoning
      synergies := synergies
      counters := counters
      priority := priority
      confidence := min (champion_power * 2) 1 })
  (sortByImpact recommendations).take 10

/-- `DraftPredictor.recommend_ban`. -/
def recommend_ban (g : ChampionGraph) (draft_state : DraftState) (team : Nat)
    (available_champions : List Champ) : List DraftRecommendation :=
  let my_picks := if team = 1 then draft_state.team1_picks else draft_state.team2_picks
  let recommendations := (available_champions.take 30).map (fun champion =>
    let champion_power := get_champion_power g champion
    let pick_rate := g.pickRate champion
    let threat_to_us : ℚ :=
      if my_picks = [] then 0
      else meanQ (my_picks.map (fun m => g.counterGet champion m (1/2))) - 1/2
    let threat_score := champion_power * (1/2) + threat_to_us * (3/10) + pick_rate * (2/10)
    let reasoning :=
      (if (53/100 : ℚ) < champion_power then ["High win rate (" ++ fmtQ champion_power ++ ")"] else [])
      ++ (if (3/10 : ℚ) < pick_rate then ["Commonly picked (" ++ fmtQ pick_rate ++ " pick rate)"] else [])
      ++ (if (5/100 : ℚ) < threat_to_us then ["Counters our composition"] else [])
    let priority :=
      if (6/10 : ℚ) < threat_score then "critical"
      else if (55/100 : ℚ) < threat_score then "high"
      else "medium"
    { champion := champion
      win_rate_impact := threat_score
      reasoning := if reasoning = [] then ["Standard ban"] else reasoning
      synergies := []
      counters := []
      priority := priority
      confidence := min (pick_rate * 3) 1 })
  (sortByImpact recommendations).take 10

/-! ### `DraftingAssistant` -/

/-- The slice of `DraftingAssistant` the game engine reads: the built
graph and the champion pool.  In the source `all_champions` is a Python
`set` collected from the drafts' action sequences; its iteration order
is unspecified, so it is modelled as a deduplicated list and all
game-level theorems quantify over an arbitrary list. -/
structure Assistant where
  graph : ChampionGraph
  all_champions : List Champ
deriving DecidableEq, Repr

def allChampions (parsed_matches : List MatchRec) : List Champ :=
  ((parsed_matches.map (fun m => m.draft.sequence.map (·.champion))).flatten).dedup

/-- `DraftingAssistant.__init__`. -/
def mkAssistant (parsed_matches : List MatchRec) : Assistant :=
  ⟨build_from_matches parsed_matches, allChampions parsed_matches⟩

/-! ### `DraftScorer` (draft_master_game.py) -/

/-- The `extras` breakdown dict returned by `DraftScorer.score_pick`. -/
structure Extras where
  bonuses : List (String × Int)
  streak : Nat
  combo : Nat
  base : Int
  time_bonus : Int
deriving DecidableEq, Repr

/-- One entry of `GameState.moves_evaluated` (the `move_record` dict). -/
structure MoveRecord where
  phase : Nat
  action : String
  champion : Champ
  score : Int
  reasoning : String
  time_taken : ℚ
  extras : Extras
deriving DecidableEq, Repr

/-- The mutable state of one Draft Master session (`GameState`), restricted
to the fields the core logic reads or writes.  `game_id`, `player_name`,
`tournament`, the real team names, `powerups_active` (never written) and
the timestamps are presentational; `completed_at` is modelled by the
Boolean `completed`. -/
structure GameState where
  difficulty : String
  historical_match_id : String
  player_picks : List Champ
  player_bans : List Champ
  ai_picks : List Champ
  ai_bans : List Champ
  current_phase : Nat
  player_turn : Bool
  score : Int
  moves_evaluated : List MoveRecord
  combo_count : Nat
  streak_count : Nat
  achievements : List String
  perfect_moves : Nat
  final_win_probability : ℚ
  completed : Bool
deriving DecidableEq, Repr

/-- The first index of `chosen` in the recommendation list
(the `for i, rec in enumerate(recommendations)` search loop). -/
def chosenRank (recommendations : List DraftRecommendation) (chosen : Champ) : Option Nat :=
  recommendations.findIdx? (fun rec => rec.champion == chosen)

/-- `recommendations[0].reasoning[0] if recommendations[0].reasoning else ''`
(only evaluated on the rank-0 branch, where the list is non-empty). -/
def optimalReason (recommendations : List DraftRecommendation) : String :=
  match recommendations with
  | [] => ""
  | rec :: _ => "Optimal pick! " ++ rec.reasoning.headD ""

/-- The rank-dependent part of `DraftScorer.score_pick`: base score,
base reasoning, the bonuses accumulated before the time/streak bonuses,
and the updated streak/perfect/combo counters. -/
def score_core (chosen : Champ) (recommendations : List DraftRecommendation)
    (gs : GameState) : Int × String × List (String × Int) × GameState :=
  match chosenRank recommendations chosen with
  | none => (0, "Unconventional choice", [], { gs with streak_count := 0 })
  | some 0 =>
      let base_score : Int := 100
      let gs1 := { gs with
        streak_count := gs.streak_count + 1
        perfect_moves := gs.perfect_moves + 1 }
      let bonuses1 : List (String × Int) :=
        if gs1.perfect_moves = 1 then [("First Blood", 50)] else []
      if 3 ≤ gs1.streak_count then
        let gs2 := { gs1 with combo_count := gs1.combo_count + 1 }
        let combo_bonus : Int := ⌊(base_score : ℚ) * (3/2)⌋
        let bonuses2 := bonuses1 ++ [("Combo x3", combo_bonus)]
        let bonuses3 :=
          if gs2.combo_count = 1 then bonuses2 ++ [("Combo Master", 150)] else bonuses2
        (base_score, optimalReason recommendations, bonuses3, gs2)
      else
        (base_score, optimalReason recommendations, bonuses1, gs1)
  | some (r + 1) =>
      if r + 1 ≤ 2 then
        (75, "Good pick! Ranked #" ++ toString (r + 2), [],
          { gs with streak_count := gs.streak_count - 1 })
      else if r + 1 ≤ 5 then
        (50, "Acceptable pick", [], { gs with streak_count := 0 })
      else
        (25, "Suboptimal - better options available", [], { gs with streak_count := 0 })

/-- `DraftScorer.score_pick`.  The unused `draft_state` parameter of the
source (always passed `None` by `make_move`) is dropped.  Returns the
`(total_score, reasoning, extras)` triple and the updated session state
(the source mutates `game_state` in place). -/
def score_pick (chosen : Champ) (recommendations : List DraftRecommendation)
    (time_taken : ℚ) (gs : GameState) : (Int × String × Extras) × GameState :=
  let core := score_core chosen recommendations gs
  let base_score := core.1
  let reasoning := core.2.1
  let bonuses0 := core.2.2.1
  let gs1 := core.2.2.2
  let time_bonus : Int := ⌊(max 0 ((30 : ℚ) - time_taken)) * 10⌋
  let bonuses1 :=
    if 200 < time_bonus then bonuses0 ++ [("Speed Bonus", time_bonus)] else bonuses0
  let bonuses2 :=
    if 0 < gs1.streak_count then bonuses1 ++ [("Streak", (gs1.streak_count : Int) * 25)]
    else bonuses1
  let total_score := base_score + time_bonus + (bonuses2.map (·.2)).sum
  let reasoning2 :=
    if bonuses2 ≠ [] then
      reasoning ++ " + " ++
        String.intercalate " + " (bonuses2.map (fun nv => nv.1 ++ " (+" ++ toString nv.2 ++ ")"))
    else reasoning
  ((total_score, reasoning2,
      { bonuses := bonuses2
        streak := gs1.streak_count
        combo := gs1.combo_count
        base := base_score
        time_bonus := time_bonus }), gs1)

/-- The per-achievement rewards of the `DraftScorer.achievements` catalog
(`'bonus'` field); `none` for identifiers not in the catalog. -/
def achCatalog : String → Option Int
  | "first_blood" => some 50
  | "combo_master" => some 150
  | "synergy_king" => some 200
  | "counter_strike" => some 175
  | "speedster" => some 125
  | "flawless" => some 500
  | "comeback_kid" => some 250
  | "draft_god" => some 300
  | _ => none

/-- `sum(self.achievements[ach]['bonus'] for ach in achievements if ach in self.achievements)`. -/
def achBonusSum (achievements : List String) : Int :=
  (achievements.map (fun a => (achCatalog a).getD 0)).sum

/-- `DraftScorer.check_achievements`.  Returns the newly unlocked list and
the updated session state (the source appends to `game_state.achievements`). -/
def check_achievements (gs : GameState) : List String × GameState :=
  let step1 :=
    if 10 ≤ gs.perfect_moves ∧ "flawless" ∉ gs.achievements
    then (["flawless"], gs.achievements ++ ["flawless"])
    else (([] : List String), gs.achievements)
  let avg_time : ℚ :=
    (gs.moves_evaluated.map (·.time_taken)).sum / (max 1 gs.moves_evaluated.length : ℚ)
  let step2 :=
    if avg_time < 15 ∧ 10 ≤ gs.moves_evaluated.length ∧ "speedster" ∉ step1.2
    then (step1.1 ++ ["speedster"], step1.2 ++ ["speedster"])
    else step1
  let step3 :=
    if (9/10 : ℚ) ≤ gs.final_win_probability ∧ "draft_god" ∉ step2.2
    then (step2.1 ++ ["draft_god"], step2.2 ++ ["draft_god"])
    else step2
  (step3.1, { gs with achievements := step3.2 })

/-- The result dict of `DraftScorer.calculate_final_score`. -/
structure FinalScore where
  base_score : Int
  win_probability_bonus : Int
  achievement_bonus : Int
  total_score : Int
  rating : String
  rank : String
  moves_made : Nat
  average_move_score : ℚ
  perfect_moves : Nat
  combos : Nat
  achievements : List String
deriving DecidableEq, Repr

/-- `DraftScorer.calculate_final_score`. -/
def calculate_final_score (gs : GameState) : FinalScore :=
  let base_score : Int := (gs.moves_evaluated.map (·.score)).sum
  let wp_bonus : Int :=
    if (75/100 : ℚ) < gs.final_win_probability then 800
    else if (65/100 : ℚ) < gs.final_win_probability then 500
    else if (55/100 : ℚ) < gs.final_win_probability then 300
    else if (1/2 : ℚ) < gs.final_win_probability then 100
    else 0
  let achievement_bonus := achBonusSum gs.achievements
  let total_score := base_score + wp_bonus + achievement_bonus
  let rating_rank : String × String :=
    if 3000 ≤ total_score then ("Legendary", "S+")
    else if 2000 ≤ total_score then ("Master", "S")
    else if 1500 ≤ total_score then ("Diamond", "A")
    else if 1000 ≤ total_score then ("Platinum", "B")
    else ("Gold", "C")
  { base_score := base_score
    win_probability_bonus := wp_bonus
    achievement_bonus := achievement_bonus
    total_score := total_score
    rating := rating_rank.1
    rank := rating_rank.2
    moves_made := gs.moves_evaluated.length
    average_move_score :=
      if gs.moves_evaluated.length ≠ 0 then base_score / (gs.moves_evaluated.length : ℚ) else 0
    perfect_moves := gs.perfect_moves
    combos := gs.combo_count
    achievements := gs.achievements }

/-! ### `DraftMasterGame` -/

/-- The game engine's dependencies (`self.matches`, `self.assistant`);
`self.scorer` wraps the same assistant and `active_games` is the ambient
session registry, which theorems model by passing the session state
explicitly. -/
structure Game where
  parsed_matches : List MatchRec
  assistant : Assistant
deriving DecidableEq, Repr

/-- `ban_phases = list(range(0, 3)) + list(range(5, 7)) + list(range(11, 13))`. -/
def ban_phases : List Nat := (List.range' 0 3) ++ (List.range' 5 2) ++ (List.range' 11 2)

/-- `DraftMasterGame._get_phase_description`. -/
def get_phase_description (phase : Nat) : String :=
  match phase with
  | 0 => "First Ban Phase - Ban 1"
  | 1 => "First Ban Phase - Ban 2"
  | 2 => "First Ban Phase - Ban 3"
  | 3 => "First Pick Phase - Pick 1"
  | 4 => "First Pick Phase - Pick 2"
  | 5 => "Second Ban Phase - Ban 1"
  | 6 => "Second Ban Phase - Ban 2"
  | 7 => "Second Pick Phase - Pick 1"
  | 8 => "Second Pick Phase - Pick 2"
  | 9 => "Second Pick Phase - Pick 3"
  | 10 => "Second Pick Phase - Pick 4"
  | 11 => "Final Ban Phase - Ban 1"
  | 12 => "Final Ban Phase - Ban 2"
  | 13 => "Final Pick Phase"
  | p => "Phase " ++ toString p

/-- The unpicked-and-unbanned champion pool computed (identically) in
`get_available_actions` and `_ai_make_move`. -/
def availablePool (asst : Assistant) (gs : GameState) : List Champ :=
  let all_picked := gs.player_picks ++ gs.ai_picks
  let all_banned := gs.player_bans ++ gs.ai_bans
  asst.all_champions.filter (fun c => !(all_picked.contains c) && !(all_banned.contains c))

/-- The full recommendation list computed inside
`DraftMasterGame.get_available_actions` for the current phase (player
perspective, team 1), before any difficulty-based truncation.
It does not depend on the session's difficulty. -/
def phaseRecommendations (asst : Assistant) (gs : GameState) : List DraftRecommendation :=
  let is_ban := ban_phases.contains gs.current_phase
  let action_type := if is_ban then "ban" else "pick"
  let available := availablePool asst gs
  let draft_state : DraftState :=
    ⟨gs.player_picks, gs.player_bans, gs.ai_picks, gs.ai_bans, action_type,
      if gs.player_turn then 1 else 2⟩
  if is_ban then recommend_ban asst.graph draft_state 1 available
  else recommend_pick asst.graph draft_state 1 available

/-- The dict returned by `DraftMasterGame.get_available_actions`. -/
structure AvailableActions where
  action_type : String
  available_champions : List Champ
  recommendations : List DraftRecommendation
  time_limit : Nat
  phase : Nat
  phase_description : String
deriving DecidableEq, Repr

/-- `DraftMasterGame.get_available_actions`.  `none` models the uncaught
`IndexError` of `recommendations[0]` on the `hard` branch when the
recommendation list is empty. -/
def get_available_actions (asst : Assistant) (gs : GameState) : Option AvailableActions :=
  let phase := gs.current_phase
  let is_ban := ban_phases.contains phase
  let action_type := if is_ban then "ban" else "pick"
  let available := availablePool asst gs
  let recommendations := phaseRecommendations asst gs
  let hints? : Option (List DraftRecommendation) :=
    if gs.difficulty == "easy" then some (recommendations.take 5)
    else if gs.difficulty == "medium" then some (recommendations.take 3)
    else if gs.difficulty == "hard" then
      match recommendations with
      | [] => none
      | rec :: _ => some [rec]
    else some []
  hints?.map (fun hints =>
    { action_type := action_type
      available_champions := available.take 50
      recommendations := if gs.difficulty == "pro" then [] else hints
      time_limit := 30
      phase := phase
      phase_description := get_phase_description phase })

/-- The recommendation list computed inside `DraftMasterGame._ai_make_move`
(AI perspective, team 2). -/
def aiRecs (asst : Assistant) (gs : GameState) (action_type : String) : List DraftRecommendation :=
  let draft_state : DraftState :=
    ⟨gs.ai_picks, gs.ai_bans, gs.player_picks, gs.player_bans, action_type, 2⟩
  let available := availablePool asst gs
  if action_type == "ban" then recommend_ban asst.graph draft_state 2 available
  else recommend_pick asst.graph draft_state 2 available

/-- `DraftMasterGame._ai_make_move`.  The `random.choice` call is modelled
by the explicit sample index `rng` reduced modulo the band size (on a
non-empty band every choice is reached by some `rng`; on an empty band
`band.get?` is `none`, modelling the uncaught `IndexError`).  For a
difficulty outside easy/medium/hard/pro no branch assigns `chosen` and the
source raises `UnboundLocalError`: result `none`. -/
def ai_make_move (asst : Assistant) (gs : GameState) (action_type : String)
    (rng : Nat) : Option ((Champ × String) × GameState) :=
  let recommendations := aiRecs asst gs action_type
  let chosen? : Option DraftRecommendation :=
    if gs.difficulty == "easy" then
      let band := recommendations.take 10
      band.get? (rng % band.length)
    else if gs.difficulty == "medium" then
      let band := recommendations.take 5
      band.get? (rng % band.length)
    else if gs.difficulty == "hard" || gs.difficulty == "pro" then
      recommendations.get? 0
    else none
  chosen?.map (fun chosen =>
    let gs' :=
      if action_type == "ban" then { gs with ai_bans := gs.ai_bans ++ [chosen.champion] }
      else { gs with ai_picks := gs.ai_picks ++ [chosen.champion] }
    ((chosen.champion, chosen.reasoning.headD "Strategic choice"), gs'))

/-- The dict returned by `DraftMasterGame._compare_to_real_match`:
`empty` models the `{}` returned when the historical match is not found. -/
inductive Comparison where
  | empty : Comparison
  | full (real_team_picks : List Champ) (similarity : ℚ) (shared_champions : List Champ)
      (real_team_won : Bool) : Comparison
deriving DecidableEq, Repr

/-- `DraftMasterGame._compare_to_real_match`.  The outer `none` models the
uncaught `IndexError` of `real_match['team_stats'][0]` on a found match
with no team stats.  Python's `set(...) & set(...)` is modelled by a
deduplicated filter (set iteration order is unspecified). -/
def compare_to_real_match (game : Game) (gs : GameState) : Option Comparison :=
  match game.parsed_matches.find? (fun m => m.match_id == gs.historical_match_id) with
  | none => some Comparison.empty
  | some real_match =>
      match real_match.team_stats with
      | [] => none
      | ts0 :: _ =>
          let real_team1_picks := real_match.draft.get_team_picks real_match.team1_id
          let common_picks :=
            (gs.player_picks.filter (fun c => real_team1_picks.contains c)).dedup
          some (Comparison.full real_team1_picks
            ((common_picks.length : ℚ) / 5 * 100) common_picks ts0.win)

/-- The dict returned by `DraftMasterGame._get_celebration`. -/
structure Celebration where
  effects : List String
  message : String
  rank : String
  title : String
deriving DecidableEq, Repr

/-- `DraftMasterGame._get_celebration`. -/
def get_celebration (final_score : FinalScore) (new_achievements : List String) : Celebration :=
  let score := final_score.total_score
  let base : List String × String :=
    if 3000 ≤ score then
      (["fireworks", "gold_rain", "epic_sound"], "LEGENDARY PERFORMANCE! You are a Draft Master!")
    else if 2000 ≤ score then
      (["confetti", "sparkles", "victory_sound"], "OUTSTANDING! Master-level drafting!")
    else if 1500 ≤ score then
      (["stars", "shimmer"], "Excellent work! Diamond-tier performance!")
    else if 1000 ≤ score then
      (["glow"], "Well played! Solid drafting!")
    else ([], "Good effort! Keep practicing!")
  let step1 : List String × String :=
    if "flawless" ∈ new_achievements then
      (base.1 ++ ["rainbow_burst"], "FLAWLESS VICTORY! Perfect draft!")
    else base
  let step2 : List String × String :=
    if "draft_god" ∈ new_achievements then
      (step1.1 ++ ["lightning"], "DRAFT GOD! 90%+ win probability achieved!")
    else step1
  { effects := step2.1
    message := step2.2
    rank := final_score.rank
    title := final_score.rating }

/-- The dict returned by `DraftMasterGame._complete_game`. -/
structure FinalResults where
  final_score : FinalScore
  win_probability : ℚ
  player_picks : List Champ
  player_bans : List Champ
  ai_picks : List Champ
  ai_bans : List Champ
  comparison : Comparison
  new_achievements : List String
  celebration : Celebration
  stats_perfect_moves : Nat
  stats_combo_count : Nat
  stats_streak_best : Nat
  stats_avg_time : ℚ
deriving DecidableEq, Repr

/-- `DraftMasterGame._complete_game`.  `none` models the uncaught
exceptions of `max([...])` / division by `len(...)` on an empty move log
and of `_compare_to_real_match` (see there). -/
def complete_game (game : Game) (gs : GameState) : Option (FinalResults × GameState) :=
  let final_draft : DraftState :=
    ⟨gs.player_picks, gs.player_bans, gs.ai_picks, gs.ai_bans, "complete", 1⟩
  let win_probs := predict_win_probability game.assistant.graph final_draft
  let gs1 := { gs with final_win_probability := win_probs.team1 }
  let ach := check_achievements gs1
  let new_achievements := ach.1
  let gs2 := ach.2
  let final_score := calculate_final_score gs2
  let gs3 := { gs2 with completed := true }
  let celebration := get_celebration final_score new_achievements
  match (gs3.moves_evaluated.map (·.extras.streak)).max?, compare_to_real_match game gs3 with
  | some streak_best, some comparison =>
      some (⟨final_score, win_probs.team1,
        gs3.player_picks, gs3.player_bans, gs3.ai_picks, gs3.ai_bans,
        comparison, new_achievements, celebration,
        gs3.perfect_moves, gs3.combo_count, streak_best,
        (gs3.moves_evaluated.map (·.time_taken)).sum / (gs3.moves_evaluated.length : ℚ)⟩, gs3)
  | _, _ => none

/-- The dict returned by `DraftMasterGame.make_move` on success. -/
structure MoveOk where
  player_move : MoveRecord
  ai_champion : Champ
  ai_reasoning : String
  current_score : Int
  game_complete : Bool
  streak : Nat
  combo : Nat
  perfect_moves : Nat
  final_results : Option FinalResults
deriving DecidableEq, Repr

/-- The observable outcome of `DraftMasterGame.make_move`: the explicit
`error` dict, an uncaught exception (`crash`), or the success dict. -/
inductive MoveOutcome where
  | error (msg : String) : MoveOutcome
  | crash : MoveOutcome
  | ok (result : MoveOk) : MoveOutcome
deriving DecidableEq, Repr

/-- The player-side mutation block of `DraftMasterGame.make_move` (scoring,
move recording, score accumulation, roster/ban append), run after
validation succeeded.  Returns the recorded move and the mutated state. -/
def apply_player_move (gs : GameState) (actions : AvailableActions) (champion : Champ)
    (time_taken : ℚ) : MoveRecord × GameState :=
  let scored := score_pick champion actions.recommendations time_taken gs
  let gs1 := scored.2
  let move_record : MoveRecord :=
    { phase := gs.current_phase
      action := actions.action_type
      champion := champion
      score := scored.1.1
      reasoning := scored.1.2.1
      time_taken := time_taken
      extras := scored.1.2.2 }
  let gs2 := { gs1 with
    moves_evaluated := gs1.moves_evaluated ++ [move_record]
    score := gs1.score + scored.1.1 }
  let gs3 :=
    if actions.action_type == "ban" then
      { gs2 with player_bans := gs2.player_bans ++ [champion] }
    else
      { gs2 with player_picks := gs2.player_picks ++ [champion] }
  (move_record, gs3)

/-- The completion tail of `DraftMasterGame.make_move`: run
`_complete_game` and attach its results to the success dict. -/
def finish_complete (game : Game) (mr : MoveRecord) (aic : Champ × String)
    (gs5 : GameState) : MoveOutcome × GameState :=
  match complete_game game gs5 with
  | none => (MoveOutcome.crash, gs5)
  | some fr =>
      (MoveOutcome.ok
        { player_move := mr
          ai_champion := aic.1
          ai_reasoning := aic.2
          current_score := gs5.score
          game_complete := decide (20 ≤ gs5.current_phase)
          streak := gs5.streak_count
          combo := gs5.combo_count
          perfect_moves := gs5.perfect_moves
          final_results := some fr.1 }, fr.2)

/-- The phase-advance / completion-check tail of `DraftMasterGame.make_move`,
run after the AI produced its counter move. -/
def step_after_ai (game : Game) (pm : MoveRecord × GameState)
    (ai : (Champ × String) × GameState) : MoveOutcome × GameState :=
  let gs5 := { ai.2 with current_phase := ai.2.current_phase + 1 }
  let game_complete : Bool := decide (20 ≤ gs5.current_phase)
  if game_complete then finish_complete game pm.1 ai.1 gs5
  else
    (MoveOutcome.ok
      { player_move := pm.1
        ai_champion := ai.1.1
        ai_reasoning := ai.1.2
        current_score := gs5.score
        game_complete := game_complete
        streak := gs5.streak_count
        combo := gs5.combo_count
        perfect_moves := gs5.perfect_moves
        final_results := none }, gs5)

/-- The tail of `DraftMasterGame.make_move` after validation: AI counter
move, phase advance, completion check. -/
def make_move_validated (game : Game) (gs : GameState) (champion : Champ) (time_taken : ℚ)
    (rng : Nat) (actions : AvailableActions) : MoveOutcome × GameState :=
  let pm := apply_player_move gs actions champion time_taken
  match ai_make_move game.assistant pm.2 actions.action_type rng with
  | none => (MoveOutcome.crash, pm.2)
  | some ai => step_after_ai game pm ai

/-- `DraftMasterGame.make_move`.  Returns the outcome together with the
session state as left in the registry (unchanged on the validation error,
partially mutated when a later step raises). -/
def make_move (game : Game) (gs : GameState) (champion : Champ) (time_taken : ℚ)
    (rng : Nat) : MoveOutcome × GameState :=
  match get_available_actions game.assistant gs with
  | none => (MoveOutcome.crash, gs)
  | some actions =>
      if actions.available_champions.contains champion then
        make_move_validated game gs champion time_taken rng actions
      else (MoveOutcome.error "Invalid champion choice", gs)

/-- `DraftMasterGame.start_new_game`: the randomly selected historical
match is passed explicitly. -/
def start_new_game (m : MatchRec) (difficulty : String) : GameState :=
  { difficulty := difficulty
    historical_match_id := m.match_id
    player_picks := []
    player_bans := []
    ai_picks := []
    ai_bans := []
    current_phase := 0
    player_turn := true
    score := 0
    moves_evaluated := []
    combo_count := 0
    streak_count := 0
    achievements := []
    perfect_moves := 0
    final_win_probability := 0
    completed := false }

/-! ### Observation helpers -/

def MoveOutcome.isOkB : MoveOutcome → Bool
  | MoveOutcome.ok _ => true
  | _ => false

/-- The base points recorded in the graded move of a successful outcome. -/
def outcomeBase? : MoveOutcome × GameState → Option Int
  | (MoveOutcome.ok r, _) => some r.player_move.extras.base
  | _ => none

/-- The `game_complete` flag of a successful outcome. -/
def outcomeComplete? : MoveOutcome → Option Bool
  | MoveOutcome.ok r => some r.game_complete
  | _ => none

/-- The base-points table of `score_pick` as a function of the chosen rank. -/
def baseOfRank : Option Nat → Int
  | none => 0
  | some 0 => 100
  | some (r + 1) => if r + 1 ≤ 2 then 75 else if r + 1 ≤ 5 then 50 else 25

/-- The difficulty-truncated hint list that `get_available_actions` returns
and `make_move` passes to the scorer.  For `hard` the source builds the
singleton `[recommendations[0]]`, which equals `take 1` whenever the list
is non-empty — the only case in which `get_available_actions` returns at
all; for `pro` and unrecognized difficulties the hint list is empty. -/
def difficultyHints (difficulty : String)
    (recs : List DraftRecommendation) : List DraftRecommendation :=
  if difficulty == "easy" then recs.take 5
  else if difficulty == "medium" then recs.take 3
  else if difficulty == "hard" then recs.take 1
  else []

/-! ### Concrete fixtures used by witnesses and counterexamples -/

/-- A three-champion draft: side `t1` fields `A` and `B`, side `t2` fields `C`. -/
def draftABC : DraftData :=
  ⟨[⟨"t1", "pick", "A"⟩, ⟨"t1", "pick", "B"⟩, ⟨"t2", "pick", "C"⟩],
   [⟨"t1", "pick", "A"⟩, ⟨"t1", "pick", "B"⟩, ⟨"t2", "pick", "C"⟩]⟩

/-- The ABC match won by `t1`. -/
def matchABCWin : MatchRec := ⟨"m1", "t1", draftABC, [⟨"t1", true⟩, ⟨"t2", false⟩]⟩

/-- The ABC match won by `t2`. -/
def matchABCLoss : MatchRec := ⟨"m1", "t1", draftABC, [⟨"t1", false⟩, ⟨"t2", true⟩]⟩

/-- Five matches in which `A` and `B` (teammates) always win. -/
def corpusWin : List MatchRec := List.replicate 5 matchABCWin

/-- Five matches in which `A` and `B` (teammates) always lose to `C`. -/
def corpusLoss : List MatchRec := List.replicate 5 matchABCLoss

/-- The graph of a fresh corpus-less build: every lookup falls back to its default. -/
def emptyGraph : ChampionGraph := build_from_matches []

def asst2 : Assistant := ⟨emptyGraph, ["A", "B"]⟩

def game2 : Game := ⟨[], asst2⟩

def gsPro : GameState := start_new_game matchABCWin "pro"

def gsEasy : GameState := start_new_game matchABCWin "easy"

def gsExpert : GameState := start_new_game matchABCWin "expert"

/-- Fifty-one distinct champion names. -/
def champs51 : List Champ := (List.range 51).map (fun n => "c" ++ toString n)

def asst51 : Assistant := ⟨emptyGraph, champs51⟩

def game51 : Game := ⟨[], asst51⟩

/-- An empty draft state (used to exercise `recommend_pick` on a clean pool). -/
def stPool : DraftState := ⟨[], [], [], [], "pick", 1⟩

/-- A session whose final win probability has been set to 0.92. -/
def gs92 : GameState := { start_new_game matchABCWin "easy" with final_win_probability := 92/100 }

/-! ### C1 — synergy is computed before the win rates are filled in -/

/-- C1: the claim says the stored synergy equals the pair's joint win rate
minus the average of the two corpus win rates.  In `build_from_matches`
the synergy loop runs before `win_rates` is populated, so the expected
win rate it subtracts is the defaultdict fallback 0.5.  On a corpus
where `A` and `B` win all 5 of their joint games (so both corpus win
rates are 1 and the joint win rate is 1) the claimed value is
`1 − (1+1)/2 = 0`, but the code stores `1 − (0.5+0.5)/2 = 0.5` —
symmetrically for both orderings. -/
theorem c1_synergy_uses_unfilled_win_rates :
    (build_from_matches corpusWin).synergy "A" "B" = 1/2
  ∧ (build_from_matches corpusWin).synergy "B" "A" = 1/2
  ∧ (build_from_matches corpusWin).winRate "A" = 1
  ∧ (build_from_matches corpusWin).winRate "B" = 1
  ∧ (1 : ℚ) - (1 + 1) / 2 = 0
  ∧ ((1 : ℚ)/2 ≠ 0) := by
  exact ⟨by with_unfolding_all decide, by with_unfolding_all decide, by with_unfolding_all decide, by with_unfolding_all decide, by norm_num, by norm_num⟩

/-! ### C2 — probabilities sum to 1 but are not confined to [0,1] -/

/-- C2 counterexample: on the corpus where `A` and `B` always lose
together to `C`, the completed draft `[A,B]` vs `[C]` yields
`team1 = −9/7 < 0` and `team2 = 16/7 > 1`, refuting the claim that both
returned probabilities always lie in [0,1]. -/
theorem c2_counterexample :
    (predict_win_probability (build_from_matches corpusLoss)
      ⟨["A", "B"], [], ["C"], [], "complete", 1⟩).team1 = -9/7
  ∧ (predict_win_probability (build_from_matches corpusLoss)
      ⟨["A", "B"], [], ["C"], [], "complete", 1⟩).team1 < 0
  ∧ (predict_win_probability (build_from_matches corpusLoss)
      ⟨["A", "B"], [], ["C"], [], "complete", 1⟩).team2 = 16/7
  ∧ 1 < (predict_win_probability (build_from_matches corpusLoss)
      ⟨["A", "B"], [], ["C"], [], "complete", 1⟩).team2 := by
  exact ⟨by with_unfolding_all decide, by with_unfolding_all decide, by with_unfolding_all decide, by with_unfolding_all decide⟩

/-! ### C3 — moves are scored against the difficulty-truncated hints -/

/-- C3 counterexample: in a `pro` session the champion ranked first in the
full phase recommendation list is scored with base 0 (the scorer receives
the empty hint list), while the same submission in an `easy` session is
scored with base 100 — so the rank-determined base points are neither
taken from the full recommendation list nor independent of difficulty. -/
theorem c3_counterexample :
    (phaseRecommendations asst2 gsPro).findIdx? (fun r => r.champion == "A") = some 0
  ∧ outcomeBase? (make_move game2 gsPro "A" 30 0) = some 0
  ∧ outcomeBase? (make_move game2 gsEasy "A" 30 0) = some 100 := by
  exact ⟨by with_unfolding_all decide, by with_unfolding_all decide, by with_unfolding_all decide⟩

/-! ### C4 — validation is against the 50-entry truncated pool -/

/-- C4 counterexample: with 51 unpicked, unbanned champions, submitting the
51st pool entry is rejected as an invalid choice even though it is
unpicked and unbanned by both sides, refuting "succeeds exactly when the
chosen entity is unpicked and unbanned". -/
theorem c4_counterexample :
    "c50" ∈ availablePool game51.assistant gsPro
  ∧ (make_move game51 gsPro "c50" 30 0).1 = MoveOutcome.error "Invalid champion choice" := by
  exact ⟨by with_unfolding_all decide, by with_unfolding_all decide⟩

/-! ### C6 — a time bonus above 200 is added twice -/

/-- C6 counterexample: an unranked choice submitted instantly
(`timeTaken = 0`) has base 0 and time bonus 300; the claim's formula gives
a total of `0 + 300 = 300`, but `score_pick` also appends the bonus to the
named-bonus list and sums that list into the total, returning 600. -/
theorem c6_counterexample :
    ((score_pick "X" [] 0 gsPro).1).1 = 600
  ∧ ((score_pick "X" [] 0 gsPro).1.2.2).base = 0
  ∧ ((score_pick "X" [] 0 gsPro).1.2.2).time_bonus = 300
  ∧ ((score_pick "X" [] 0 gsPro).1.2.2).bonuses = [("Speed Bonus", 300)]
  ∧ (600 : Int) ≠ 0 + 300 := by
  exact ⟨by with_unfolding_all decide, by with_unfolding_all decide, by with_unfolding_all decide, by with_unfolding_all decide, by decide⟩

/-! ### C8 — recommend_pick does not filter the caller's pool -/

/-- C8 counterexample: `recommend_pick` evaluates whatever pool it is
given; with `A` already in side 1's picks and a pool containing `A`, the
returned recommendation list contains `A`, refuting the claim for
arbitrary candidate pools. -/
theorem c8_counterexample :
    ((recommend_pick emptyGraph ⟨["A"], [], [], [], "pick", 1⟩ 1 ["A"]).map (·.champion)) = ["A"]
  ∧ "A" ∈ (DraftState.mk ["A"] [] [] [] "pick" 1).team1_picks := by
  exact ⟨by with_unfolding_all decide, by with_unfolding_all decide⟩

/-! ### Structural lemmas about the scorer and the game engine -/

theorem score_core_base (chosen : Champ) (recs : List DraftRecommendation) (gs : GameState) :
    (score_core chosen recs gs).1 = baseOfRank (chosenRank recs chosen) := by
  unfold score_core baseOfRank
  cases h : chosenRank recs chosen with
  | none => rfl
  | some n =>
    cases n with
    | zero => dsimp only; split <;> rfl
    | succ r => dsimp only; split <;> (try split) <;> rfl

theorem score_core_bonus_names (chosen : Champ) (recs : List DraftRecommendation)
    (gs : GameState) :
    ∀ p ∈ (score_core chosen recs gs).2.2.1,
      p.1 = "First Blood" ∨ p.1 = "Combo x3" ∨ p.1 = "Combo Master" := by
  intro p hp
  unfold score_core at hp
  cases h : chosenRank recs chosen with
  | none => rw [h] at hp; simp at hp
  | some n =>
    rw [h] at hp
    cases n with
    | zero =>
      dsimp only at hp
      split at hp
      · dsimp only at hp
        split at hp
        · rcases List.mem_append.mp hp with hp1 | hp1
          · rcases List.mem_append.mp hp1 with hp2 | hp2
            · split at hp2
              · simp only [List.mem_singleton] at hp2; subst hp2; exact Or.inl rfl
              · simp at hp2
            · simp only [List.mem_singleton] at hp2; subst hp2
              exact Or.inr (Or.inl rfl)
          · simp only [List.mem_singleton] at hp1; subst hp1
            exact Or.inr (Or.inr rfl)
        · rcases List.mem_append.mp hp with hp1 | hp1
          · split at hp1
            · simp only [List.mem_singleton] at hp1; subst hp1; exact Or.inl rfl
            · simp at hp1
          · simp only [List.mem_singleton] at hp1; subst hp1
            exact Or.inr (Or.inl rfl)
      · dsimp only at hp
        split at hp
        · simp only [List.mem_singleton] at hp; subst hp; exact Or.inl rfl
        · simp at hp
    | succ r =>
      dsimp only at hp
      split at hp <;> (try split at hp) <;> simp at hp

theorem score_core_state (chosen : Champ) (recs : List DraftRecommendation) (gs : GameState) :
    ((score_core chosen recs gs).2.2.2).current_phase = gs.current_phase
  ∧ ((score_core chosen recs gs).2.2.2).difficulty = gs.difficulty := by
  unfold score_core
  cases h : chosenRank recs chosen with
  | none => exact ⟨rfl, rfl⟩
  | some n =>
    cases n with
    | zero => dsimp only; split <;> exact ⟨rfl, rfl⟩
    | succ r => dsimp only; split <;> (try split) <;> exact ⟨rfl, rfl⟩

theorem apply_player_move_state (gs : GameState) (actions : AvailableActions)
    (champ : Champ) (t : ℚ) :
    ((apply_player_move gs actions champ t).2).current_phase = gs.current_phase
  ∧ ((apply_player_move gs actions champ t).2).difficulty = gs.difficulty := by
  have h := score_core_state champ actions.recommendations gs
  unfold apply_player_move score_pick
  dsimp only
  split <;> exact ⟨h.1, h.2⟩

theorem ai_make_move_some_state (asst : Assistant) (gs : GameState) (aty : String)
    (rng : Nat) (p : (Champ × String) × GameState)
    (h : ai_make_move asst gs aty rng = some p) : p.2.current_phase = gs.current_phase := by
  unfold ai_make_move at h
  rw [Option.map_eq_some'] at h
  obtain ⟨chosen, _, rfl⟩ := h
  dsimp only
  split <;> rfl

theorem ai_make_move_none_of_unknown (asst : Assistant) (gs : GameState) (aty : String)
    (rng : Nat) (h1 : gs.difficulty ≠ "easy") (h2 : gs.difficulty ≠ "medium")
    (h3 : gs.difficulty ≠ "hard") (h4 : gs.difficulty ≠ "pro") :
    ai_make_move asst gs aty rng = none := by
  unfold ai_make_move
  simp [h1, h2, h3, h4]

theorem complete_game_some_state (game : Game) (gs : GameState)
    (p : FinalResults × GameState) (h : complete_game game gs = some p) :
    p.2.current_phase = gs.current_phase := by
  unfold complete_game at h
  dsimp only at h
  split at h
  · rw [Option.some.injEq] at h
    subst h
    rfl
  · simp at h

theorem get_available_actions_fields (asst : Assistant) (gs : GameState)
    (act : AvailableActions) (h : get_available_actions asst gs = some act) :
    act.action_type = (if ban_phases.contains gs.current_phase then "ban" else "pick")
  ∧ act.available_champions = (availablePool asst gs).take 50
  ∧ act.recommendations = difficultyHints gs.difficulty (phaseRecommendations asst gs) := by
  unfold get_available_actions at h
  dsimp only at h
  rw [Option.map_eq_some'] at h
  obtain ⟨hints, hh, rfl⟩ := h
  refine ⟨rfl, rfl, ?_⟩
  unfold difficultyHints
  by_cases h1 : gs.difficulty = "easy"
  · simp [h1] at hh ⊢
    exact hh.symm
  · by_cases h2 : gs.difficulty = "medium"
    · simp [h1, h2] at hh ⊢
      exact hh.symm
    · by_cases h3 : gs.difficulty = "hard"
      · simp [h1, h2, h3] at hh ⊢
        cases hrecs : phaseRecommendations asst gs with
        | nil => rw [hrecs] at hh; simp at hh
        | cons r tail =>
            rw [hrecs] at hh
            simp at hh
            simp [← hh]
      · simp [h1, h2, h3] at hh ⊢
        by_cases h4 : gs.difficulty = "pro" <;> simp [h4, ← hh]

theorem isSome_opt_map {α β : Type} (f : α → β) (x : Option α) :
    (x.map f).isSome = x.isSome := by
  cases x <;> rfl

theorem get?_isSome_iff {α : Type} (l : List α) (n : Nat) :
    (l.get? n).isSome = true ↔ n < l.length := by
  constructor
  · intro hs
    obtain ⟨a, ha⟩ := Option.isSome_iff_exists.mp hs
    exact (List.get?_eq_some.mp ha).1
  · intro h
    rw [List.get?_eq_get h]
    rfl

theorem band_get_isSome {α : Type} (l : List α) (rng : Nat) :
    ((l.get? (rng % l.length)).isSome = true) ↔ l ≠ [] := by
  rw [get?_isSome_iff]
  constructor
  · intro h hnil
    subst hnil
    simp at h
  · intro h
    exact Nat.mod_lt rng (List.length_pos.mpr h)

theorem finish_complete_ne_error (game : Game) (mr : MoveRecord) (aic : Champ × String)
    (gs5 : GameState) (msg : String) :
    (finish_complete game mr aic gs5).1 ≠ MoveOutcome.error msg := by
  unfold finish_complete
  split <;> simp

theorem step_after_ai_ne_error (game : Game) (pm : MoveRecord × GameState)
    (ai : (Champ × String) × GameState) (msg : String) :
    (step_after_ai game pm ai).1 ≠ MoveOutcome.error msg := by
  unfold step_after_ai
  dsimp only
  split
  · exact finish_complete_ne_error _ _ _ _ _
  · simp

theorem make_move_validated_ne_error (game : Game) (gs : GameState) (champ : Champ)
    (t : ℚ) (rng : Nat) (act : AvailableActions) (msg : String) :
    (make_move_validated game gs champ t rng act).1 ≠ MoveOutcome.error msg := by
  unfold make_move_validated
  dsimp only
  split
  · simp
  · exact step_after_ai_ne_error _ _ _ _

/-- C2 (amended): for every graph and draft state the two returned values
sum to exactly 1, and when both sides' pick lists are empty both values
equal 0.5.  (The values are not in general confined to [0,1] — see the
counterexample.) -/
theorem c2_probabilities_sum_to_one (g : ChampionGraph) (s : DraftState)
    (b1 b2 : List Champ) (ph : String) (tn : Nat) :
    (predict_win_probability g s).team1 + (predict_win_probability g s).team2 = 1
  ∧ (predict_win_probability g ⟨[], b1, [], b2, ph, tn⟩).team1 = 1/2
  ∧ (predict_win_probability g ⟨[], b1, [], b2, ph, tn⟩).team2 = 1/2 := by
  have hsum : ∀ s1 s2 : ℚ, (normalizeProbs s1 s2).1 + (normalizeProbs s1 s2).2 = 1 := by
    intro s1 s2
    simp only [normalizeProbs]
    by_cases h : 0 < s1 + s2
    · rw [if_pos h]
      dsimp only
      rw [div_add_div_same, div_self (ne_of_gt h)]
    · rw [if_neg h]
      norm_num
  have hsyn : get_team_synergy g ([] : List Champ) = 0 := by
    simp [get_team_synergy]
  have hcs : get_counter_score g ([] : List Champ) ([] : List Champ) = 0 := by
    simp [get_counter_score]
  refine ⟨hsum _ _, ?_, ?_⟩
  · show (normalizeProbs (1/2 + get_team_synergy g [] + get_counter_score g [] [])
      (1/2 + get_team_synergy g [] - get_counter_score g [] [])).1 = 1/2
    rw [hsyn, hcs]
    norm_num [normalizeProbs]
  · show (normalizeProbs (1/2 + get_team_synergy g [] + get_counter_score g [] [])
      (1/2 + get_team_synergy g [] - get_counter_score g [] [])).2 = 1/2
    rw [hsyn, hcs]
    norm_num [normalizeProbs]

/-! ### C10 — totality domain of the simulated-opponent step -/

/-- C10: `_ai_make_move` returns a value exactly when the session
difficulty is one of easy/medium/hard/pro and its recommendation list is
non-empty (hard/pro index the first recommendation with no emptiness
guard; an unrecognized difficulty never assigns a choice); and when a
validated `make_move` reaches the opponent step with an unrecognized
difficulty, the call fails (crash) instead of returning an error value. -/
theorem c10_ai_move_totality (asst : Assistant) (gs : GameState) (aty : String)
    (rng : Nat) (game : Game) (champ : Champ) (t : ℚ) :
    ((ai_make_move asst gs aty rng).isSome = true ↔
      ((gs.difficulty = "easy" ∨ gs.difficulty = "medium" ∨ gs.difficulty = "hard" ∨
        gs.difficulty = "pro") ∧ aiRecs asst gs aty ≠ []))
  ∧ ((get_available_actions game.assistant gs).isSome = true →
      champ ∈ (availablePool game.assistant gs).take 50 →
      gs.difficulty ≠ "easy" → gs.difficulty ≠ "medium" → gs.difficulty ≠ "hard" →
      gs.difficulty ≠ "pro" →
      (make_move game gs champ t rng).1 = MoveOutcome.crash) := by
  constructor
  · unfold ai_make_move
    dsimp only
    rw [isSome_opt_map]
    by_cases h1 : gs.difficulty = "easy"
    · simp only [h1, beq_self_eq_true, if_true]
      rw [band_get_isSome]
      simp [List.take_eq_nil_iff, h1]
    · by_cases h2 : gs.difficulty = "medium"
      · simp only [h2, beq_self_eq_true, if_true]
        rw [if_neg (by simp [h2])]
        rw [band_get_isSome]
        simp [List.take_eq_nil_iff, h2]
      · by_cases h3 : gs.difficulty = "hard"
        · rw [if_neg (by simp [h3]), if_neg (by simp [h3]), if_pos (by simp [h3])]
          rw [get?_isSome_iff]
          simp [List.length_pos, h3]
        · by_cases h4 : gs.difficulty = "pro"
          · rw [if_neg (by simp [h4]), if_neg (by simp [h4]), if_pos (by simp [h4])]
            rw [get?_isSome_iff]
            simp [List.length_pos, h4]
          · rw [if_neg (by simp [h1]), if_neg (by simp [h2]),
              if_neg (by simp [h3, h4])]
            simp [h1, h2, h3, h4]
  · intro hs hmem h1 h2 h3 h4
    obtain ⟨act, hact⟩ := Option.isSome_iff_exists.mp hs
    have hf := get_available_actions_fields _ _ _ hact
    unfold make_move
    rw [hact]
    dsimp only
    have hcont : act.available_champions.contains champ = true := by
      rw [hf.2.1]
      exact List.elem_iff.mpr hmem
    rw [if_pos hcont]
    unfold make_move_validated
    dsimp only
    have hd : ((apply_player_move gs act champ t).2).difficulty = gs.difficulty :=
      (apply_player_move_state gs act champ t).2
    rw [ai_make_move_none_of_unknown game.assistant _ _ rng
      (by rw [hd]; exact h1) (by rw [hd]; exact h2) (by rw [hd]; exact h3)
      (by rw [hd]; exact h4)]

/-! ### C4 — rejection is exactly "outside the 50-entry truncated pool" -/

/-- C4 (amended): given that the hint step completed, `make_move` returns
the explicit invalid-choice error exactly when the chosen entity is not
among the FIRST 50 entries of the unpicked-and-unbanned pool (not: "is
picked or banned"), and on that rejection the session state is returned
completely unchanged. -/
theorem c4_reject_iff_outside_truncated_pool (game : Game) (gs : GameState) (champ : Champ)
    (t : ℚ) (rng : Nat) (h : (get_available_actions game.assistant gs).isSome = true) :
    (((make_move game gs champ t rng).1 = MoveOutcome.error "Invalid champion choice") ↔
      champ ∉ (availablePool game.assistant gs).take 50)
  ∧ (champ ∉ (availablePool game.assistant gs).take 50 →
      (make_move game gs champ t rng).2 = gs) := by
  obtain ⟨act, hact⟩ := Option.isSome_iff_exists.mp h
  have hf := get_available_actions_fields _ _ _ hact
  unfold make_move
  rw [hact]
  dsimp only
  by_cases hmem : champ ∈ (availablePool game.assistant gs).take 50
  · have hcont : act.available_champions.contains champ = true := by
      rw [hf.2.1]
      exact List.elem_iff.mpr hmem
    rw [if_pos hcont]
    refine ⟨⟨fun herr => absurd herr (make_move_validated_ne_error _ _ _ _ _ _ _),
      fun hnot => absurd hmem hnot⟩, fun hnot => absurd hmem hnot⟩
  · have hcont : act.available_champions.contains champ = false := by
      rw [hf.2.1]
      simp only [List.elem_eq_mem, decide_eq_false_iff_not]
      exact hmem
    rw [if_neg (by rw [hcont]; simp)]
    exact ⟨⟨fun _ => hmem, fun _ => rfl⟩, fun _ => rfl⟩

/-! ### C9 — the 50-entry truncation makes valid entities unreachable -/

/-- C9: `get_available_actions` exposes only the first 50 entries of the
unpicked-and-unbanned pool, and `make_move` validates against that
truncated list; hence when more than 50 distinct entities are unpicked
and unbanned, the pool's 51st entry — itself unpicked and unbanned — is
rejected as an invalid choice, with the session state unchanged. -/
theorem c9_truncated_pool_rejects_valid_entity (game : Game) (gs : GameState) (t : ℚ)
    (rng : Nat) (h50 : 50 < (availablePool game.assistant gs).length)
    (hnd : (availablePool game.assistant gs).Nodup)
    (hs : (get_available_actions game.assistant gs).isSome = true) :
    (availablePool game.assistant gs).getD 50 "" ∈ availablePool game.assistant gs
  ∧ (availablePool game.assistant gs).getD 50 "" ∉ (availablePool game.assistant gs).take 50
  ∧ ((get_available_actions game.assistant gs).map (fun a => a.available_champions))
      = some ((availablePool game.assistant gs).take 50)
  ∧ make_move game gs ((availablePool game.assistant gs).getD 50 "") t rng
      = (MoveOutcome.error "Invalid champion choice", gs) := by
  obtain ⟨act, hact⟩ := Option.isSome_iff_exists.mp hs
  have hf := get_available_actions_fields _ _ _ hact
  have hgd : (availablePool game.assistant gs).getD 50 ""
      = (availablePool game.assistant gs)[50] := by
    rw [List.getD_eq_getElem?_getD, List.getElem?_eq_getElem h50]
    rfl
  have hmemfull : (availablePool game.assistant gs).getD 50 "" ∈ availablePool game.assistant gs := by
    rw [hgd]
    exact List.getElem_mem h50
  have hdrop : (availablePool game.assistant gs).getD 50 ""
      ∈ (availablePool game.assistant gs).drop 50 := by
    have hlen : 0 < ((availablePool game.assistant gs).drop 50).length := by
      rw [List.length_drop]
      omega
    have : ((availablePool game.assistant gs).drop 50)[0] ∈
        (availablePool game.assistant gs).drop 50 := List.getElem_mem hlen
    rw [List.getElem_drop] at this
    rw [hgd]
    simpa using this
  have hnotin : (availablePool game.assistant gs).getD 50 ""
      ∉ (availablePool game.assistant gs).take 50 := by
    intro hin
    exact List.disjoint_take_drop hnd (le_refl 50) hin hdrop
  refine ⟨hmemfull, hnotin, ?_, ?_⟩
  · rw [hact]
    simp [hf.2.1]
  · unfold make_move
    rw [hact]
    dsimp only
    have hcont : act.available_champions.contains
        ((availablePool game.assistant gs).getD 50 "") = false := by
      rw [hf.2.1]
      simp only [List.elem_eq_mem, decide_eq_false_iff_not]
      exact hnotin
    rw [if_neg (by rw [hcont]; simp)]

/-! ### C5 — phase machine -/

theorem finish_complete_phase (game : Game) (mr : MoveRecord) (aic : Champ × String)
    (gs5 : GameState) :
    (finish_complete game mr aic gs5).1.isOkB = false
  ∨ ((finish_complete game mr aic gs5).2.current_phase = gs5.current_phase
     ∧ outcomeComplete? (finish_complete game mr aic gs5).1
        = some (decide (20 ≤ gs5.current_phase))) := by
  unfold finish_complete
  cases hcg : complete_game game gs5 with
  | none => left; rfl
  | some fr =>
    right
    refine ⟨complete_game_some_state _ _ _ hcg, rfl⟩

theorem step_after_ai_phase (game : Game) (pm : MoveRecord × GameState)
    (ai : (Champ × String) × GameState) :
    (step_after_ai game pm ai).1.isOkB = false
  ∨ ((step_after_ai game pm ai).2.current_phase = ai.2.current_phase + 1
     ∧ outcomeComplete? (step_after_ai game pm ai).1
        = some (decide (20 ≤ ai.2.current_phase + 1))) := by
  unfold step_after_ai
  dsimp only
  split
  · rcases finish_complete_phase game pm.1 ai.1
        { ai.2 with current_phase := ai.2.current_phase + 1 } with h | ⟨h1, h2⟩
    · left; exact h
    · right; exact ⟨h1, h2⟩
  · right; exact ⟨rfl, rfl⟩

theorem make_move_validated_phase (game : Game) (gs : GameState) (champ : Champ)
    (t : ℚ) (rng : Nat) (act : AvailableActions) :
    (make_move_validated game gs champ t rng act).1.isOkB = false
  ∨ ((make_move_validated game gs champ t rng act).2.current_phase = gs.current_phase + 1
     ∧ outcomeComplete? (make_move_validated game gs champ t rng act).1
        = some (decide (20 ≤ gs.current_phase + 1))) := by
  unfold make_move_validated
  dsimp only
  cases hai : ai_make_move game.assistant (apply_player_move gs act champ t).2
      act.action_type rng with
  | none => left; rfl
  | some ai =>
    have hphase : ai.2.current_phase = gs.current_phase :=
      (ai_make_move_some_state _ _ _ _ _ hai).trans
        (apply_player_move_state gs act champ t).1
    rcases step_after_ai_phase game (apply_player_move gs act champ t) ai with h | ⟨h1, h2⟩
    · left; exact h
    · right
      rw [hphase] at h1 h2
      exact ⟨h1, h2⟩

/-- C5: every session starts at phase 0; a successful `submitMove` advances
the phase by exactly 1 and reports completion exactly when the new index
reaches 20 (in particular, from an in-range phase `< 20`, completion fires
iff the new index is exactly 20); and the action kind at the current
phase is "ban" exactly on the fixed index set `{0,1,2,5,6,11,12}` of the
0..19 sequence, "pick" otherwise. -/
theorem c5_phase_machine (m : MatchRec) (d : String) (game : Game) (gs : GameState)
    (champ : Champ) (t : ℚ) (rng : Nat) :
    (start_new_game m d).current_phase = 0
  ∧ ((make_move game gs champ t rng).1.isOkB = true →
        (make_move game gs champ t rng).2.current_phase = gs.current_phase + 1
      ∧ outcomeComplete? (make_move game gs champ t rng).1
          = some (decide (20 ≤ gs.current_phase + 1))
      ∧ (gs.current_phase < 20 →
          (outcomeComplete? (make_move game gs champ t rng).1 = some true ↔
            gs.current_phase + 1 = 20)))
  ∧ ((get_available_actions game.assistant gs).isSome = true →
        (((get_available_actions game.assistant gs).map (fun a => a.action_type)) = some "ban"
          ↔ gs.current_phase ∈ ban_phases)
      ∧ (((get_available_actions game.assistant gs).map (fun a => a.action_type)) = some "pick"
          ↔ gs.current_phase ∉ ban_phases))
  ∧ ban_phases = [0, 1, 2, 5, 6, 11, 12] := by
  refine ⟨rfl, ?_, ?_, by decide⟩
  · intro hok
    unfold make_move at hok ⊢
    cases hact : get_available_actions game.assistant gs with
    | none =>
      rw [hact] at hok
      simp [MoveOutcome.isOkB] at hok
    | some act =>
      rw [hact] at hok
      dsimp only at hok ⊢
      by_cases hcont : act.available_champions.contains champ = true
      · rw [hcont] at hok ⊢
        rw [if_pos rfl] at hok ⊢
        rcases make_move_validated_phase game gs champ t rng act with hbad | h2
        · rw [hok] at hbad; cases hbad
        refine ⟨h2.1, h2.2, ?_⟩
        intro hlt
        rw [h2.2]
        constructor
        · intro hsome
          rw [Option.some.injEq] at hsome
          have := of_decide_eq_true hsome
          omega
        · intro heq
          rw [heq]
          simp
      · rw [Bool.not_eq_true] at hcont
        rw [hcont] at hok
        rw [if_neg Bool.false_ne_true] at hok
        simp [MoveOutcome.isOkB] at hok
  · intro hs
    obtain ⟨act, hact⟩ := Option.isSome_iff_exists.mp hs
    have hf := get_available_actions_fields _ _ _ hact
    rw [hact]
    by_cases hb : gs.current_phase ∈ ban_phases
    · have hcont : ban_phases.contains gs.current_phase = true := List.elem_iff.mpr hb
      constructor
      · simp [hf.1, hcont, hb]
      · simp [hf.1, hcont, hb]
    · have hcont : ban_phases.contains gs.current_phase = false := by
        simp only [List.elem_eq_mem, decide_eq_false_iff_not]
        exact hb
      constructor
      · simp [hf.1, hcont, hb]
      · simp [hf.1, hcont, hb]

/-! ### C3 — hints per difficulty, and scoring against the truncated hints -/

theorem step_after_ai_base_shape (game : Game) (pm : MoveRecord × GameState)
    (ai : (Champ × String) × GameState) :
    outcomeBase? (step_after_ai game pm ai) = none
  ∨ outcomeBase? (step_after_ai game pm ai) = some pm.1.extras.base := by
  unfold step_after_ai
  dsimp only
  split
  · unfold finish_complete
    split
    · left; rfl
    · right; rfl
  · right; rfl

theorem make_move_validated_base_shape (game : Game) (gs : GameState) (champ : Champ)
    (t : ℚ) (rng : Nat) (act : AvailableActions) :
    outcomeBase? (make_move_validated game gs champ t rng act) = none
  ∨ outcomeBase? (make_move_validated game gs champ t rng act)
      = some (baseOfRank (chosenRank act.recommendations champ)) := by
  unfold make_move_validated
  dsimp only
  cases hai : ai_make_move game.assistant (apply_player_move gs act champ t).2
      act.action_type rng with
  | none => left; rfl
  | some ai =>
    have hbase : (apply_player_move gs act champ t).1.extras.base
        = baseOfRank (chosenRank act.recommendations champ) := by
      show (score_core champ act.recommendations gs).1
        = baseOfRank (chosenRank act.recommendations champ)
      exact score_core_base champ act.recommendations gs
    rcases step_after_ai_base_shape game (apply_player_move gs act champ t) ai with h | h
    · left; exact h
    · right; rw [h, hbase]

/-- C3 (amended): difficulty gates the hint list exactly as claimed (easy
top 5, medium top 3, hard top 1, pro none) — but the same truncated hint
list is what `make_move` hands to the scorer, so the chosen entity's rank
and hence its base points are determined within the difficulty-truncated
hints, NOT within the full recommendation list, and they differ across
difficulty tiers. -/
theorem c3_hints_gate_and_scoring (asst : Assistant) (game : Game) (gs : GameState)
    (champ : Champ) (t : ℚ) (rng : Nat) :
    ((get_available_actions asst { gs with difficulty := "easy" }).map (·.recommendations)
        = some ((phaseRecommendations asst gs).take 5))
  ∧ ((get_available_actions asst { gs with difficulty := "medium" }).map (·.recommendations)
        = some ((phaseRecommendations asst gs).take 3))
  ∧ (phaseRecommendations asst gs ≠ [] →
      (get_available_actions asst { gs with difficulty := "hard" }).map (·.recommendations)
        = some ((phaseRecommendations asst gs).take 1))
  ∧ ((get_available_actions asst { gs with difficulty := "pro" }).map (·.recommendations)
        = some [])
  ∧ (∀ b, outcomeBase? (make_move game gs champ t rng) = some b →
      b = baseOfRank (chosenRank
        (difficultyHints gs.difficulty (phaseRecommendations game.assistant gs)) champ)) := by
  have hphaserec : ∀ d, phaseRecommendations asst { gs with difficulty := d }
      = phaseRecommendations asst gs := fun _ => rfl
  refine ⟨?_, ?_, ?_, ?_, ?_⟩
  · unfold get_available_actions
    rw [hphaserec]
    simp
  · unfold get_available_actions
    rw [hphaserec]
    simp
  · intro hne
    unfold get_available_actions
    rw [hphaserec]
    cases hrecs : phaseRecommendations asst gs with
    | nil => exact absurd hrecs hne
    | cons r tail => simp
  · unfold get_available_actions
    rw [hphaserec]
    simp
  · intro b hb
    unfold make_move at hb
    cases hact : get_available_actions game.assistant gs with
    | none =>
      rw [hact] at hb
      simp [outcomeBase?] at hb
    | some act =>
      rw [hact] at hb
      dsimp only at hb
      by_cases hcont : act.available_champions.contains champ = true
      · rw [hcont, if_pos rfl] at hb
        have hf := get_available_actions_fields _ _ _ hact
        rcases make_move_validated_base_shape game gs champ t rng act with h | h
        · rw [h] at hb; cases hb
        · rw [h, Option.some.injEq] at hb
          rw [← hb, hf.2.2]
      · rw [Bool.not_eq_true] at hcont
        rw [hcont, if_neg Bool.false_ne_true] at hb
        simp [outcomeBase?] at hb

/-! ### C6 — the scoring formula, with the time bonus added twice above 200 -/

/-- C6 (amended): the graded move's breakdown satisfies: the time bonus is
`⌊max(0, 30 − t) × 10⌋`; the base points follow the rank table
(unranked 0, rank 0 → 100, 1–2 → 75, 3–5 → 50, else 25) over the
recommendation list passed in; the total equals base + time bonus + the
sum of the named-bonus list; and the named-bonus list contains the
`Speed Bonus` entry (same value as the time bonus) exactly when the time
bonus exceeds 200 — so such a bonus is counted twice, not merely
surfaced — and the `Streak` entry `streak × 25` exactly when the
post-move streak is live. -/
theorem c6_score_breakdown (chosen : Champ) (recs : List DraftRecommendation)
    (t : ℚ) (gs : GameState) :
    ((score_pick chosen recs t gs).1.2.2).time_bonus = ⌊(max 0 ((30 : ℚ) - t)) * 10⌋
  ∧ ((score_pick chosen recs t gs).1.2.2).base = baseOfRank (chosenRank recs chosen)
  ∧ (score_pick chosen recs t gs).1.1
      = ((score_pick chosen recs t gs).1.2.2).base
        + ((score_pick chosen recs t gs).1.2.2).time_bonus
        + ((((score_pick chosen recs t gs).1.2.2).bonuses.map (·.2)).sum)
  ∧ ((200 : Int) < ((score_pick chosen recs t gs).1.2.2).time_bonus ↔
      ("Speed Bonus", ((score_pick chosen recs t gs).1.2.2).time_bonus)
        ∈ ((score_pick chosen recs t gs).1.2.2).bonuses)
  ∧ ((0 : Nat) < ((score_pick chosen recs t gs).1.2.2).streak ↔
      ("Streak", (((score_pick chosen recs t gs).1.2.2).streak : Int) * 25)
        ∈ ((score_pick chosen recs t gs).1.2.2).bonuses) := by
  have hnames := score_core_bonus_names chosen recs gs
  refine ⟨rfl, score_core_base chosen recs gs, rfl, ?_, ?_⟩
  · unfold score_pick
    dsimp only
    by_cases h2 : (200 : Int) < ⌊(max 0 ((30 : ℚ) - t)) * 10⌋
    · rw [if_pos h2]
      apply iff_of_true h2
      by_cases hS : 0 < ((score_core chosen recs gs).2.2.2).streak_count
      · rw [if_pos hS]
        exact List.mem_append_left _ (List.mem_append_right _ (List.mem_singleton_self _))
      · rw [if_neg hS]
        exact List.mem_append_right _ (List.mem_singleton_self _)
    · rw [if_neg h2]
      apply iff_of_false h2
      intro hmem
      revert hmem
      split
      · intro hmem
        rcases List.mem_append.mp hmem with h | h
        · rcases hnames _ h with h' | h' | h' <;> simp at h'
        · simp at h
      · intro hmem
        rcases hnames _ hmem with h' | h' | h' <;> simp at h'
  · unfold score_pick
    dsimp only
    by_cases hS : 0 < ((score_core chosen recs gs).2.2.2).streak_count
    · rw [if_pos hS]
      apply iff_of_true hS
      exact List.mem_append_right _ (List.mem_singleton_self _)
    · rw [if_neg hS]
      apply iff_of_false hS
      intro hmem
      revert hmem
      split
      · intro hmem
        rcases List.mem_append.mp hmem with h | h
        · rcases hnames _ h with h' | h' | h' <;> simp at h'
        · simp at h
      · intro hmem
        rcases hnames _ hmem with h' | h' | h' <;> simp at h'

/-! ### C7 — draft_god at 0.92 final win probability -/

theorem achBonusSum_cons (x : String) (xs : List String) :
    achBonusSum (x :: xs) = (achCatalog x).getD 0 + achBonusSum xs := by
  simp [achBonusSum]

theorem achBonusSum_count_one (l : List String) (h : l.count "draft_god" = 1) :
    achBonusSum l = 300 + achBonusSum (l.filter (fun a => a != "draft_god")) := by
  induction l with
  | nil => simp at h
  | cons x xs ih =>
    by_cases hx : x = "draft_god"
    · subst hx
      rw [List.count_cons_self] at h
      have hz : xs.count "draft_god" = 0 := by omega
      have hnx : "draft_god" ∉ xs := by
        rw [← List.count_eq_zero]
        exact hz
      have hfil : xs.filter (fun a => a != "draft_god") = xs := by
        apply List.filter_eq_self.mpr
        intro a ha
        simp only [bne_iff_ne, ne_eq]
        intro hcontra
        exact hnx (hcontra ▸ ha)
      rw [achBonusSum_cons]
      have hhead : ("draft_god" :: xs).filter (fun a => a != "draft_god")
          = xs.filter (fun a => a != "draft_god") := by
        simp [List.filter_cons]
      rw [hhead, hfil]
      simp [achCatalog]
    · have hcount : xs.count "draft_god" = 1 := by
        rw [List.count_cons] at h
        simpa [hx] using h
      have hhead : (x :: xs).filter (fun a => a != "draft_god")
          = x :: xs.filter (fun a => a != "draft_god") := by
        simp [List.filter_cons, hx]
      rw [achBonusSum_cons, hhead, achBonusSum_cons, ih hcount]
      ring

theorem check_achievements_spec (gs : GameState)
    (hnot : "draft_god" ∉ gs.achievements)
    (hgate : (9/10 : ℚ) ≤ gs.final_win_probability) :
    ∃ pre : List String,
      ((check_achievements gs).2).achievements = pre ++ ["draft_god"]
    ∧ "draft_god" ∉ pre
    ∧ "draft_god" ∈ (check_achievements gs).1
    ∧ ((check_achievements gs).2).final_win_probability = gs.final_win_probability := by
  have hdg1 : ∀ l : List String, "draft_god" ∉ l → "draft_god" ∉ l ++ ["flawless"] := by
    intro l hl
    simp [hl]
  have hdg2 : ∀ l : List String, "draft_god" ∉ l → "draft_god" ∉ l ++ ["speedster"] := by
    intro l hl
    simp [hl]
  unfold check_achievements
  dsimp only
  split
  next h1 =>
    split
    next h2 =>
      split
      next h3 =>
        exact ⟨gs.achievements ++ ["flawless"] ++ ["speedster"], rfl,
          hdg2 _ (hdg1 _ hnot), by simp, rfl⟩
      next h3 => exact absurd ⟨hgate, hdg2 _ (hdg1 _ hnot)⟩ h3
    next h2 =>
      split
      next h3 =>
        exact ⟨gs.achievements ++ ["flawless"], rfl, hdg1 _ hnot, by simp, rfl⟩
      next h3 => exact absurd ⟨hgate, hdg1 _ hnot⟩ h3
  next h1 =>
    split
    next h2 =>
      split
      next h3 =>
        exact ⟨gs.achievements ++ ["speedster"], rfl, hdg2 _ hnot, by simp, rfl⟩
      next h3 => exact absurd ⟨hgate, hdg2 _ hnot⟩ h3
    next h2 =>
      split
      next h3 => exact ⟨gs.achievements, rfl, hnot, by simp, rfl⟩
      next h3 => exact absurd ⟨hgate, hnot⟩ h3

/-- C7: in a session finalized with `finalWinProbability = 0.92`,
`checkAchievements` unlocks "draft_god" (and it appears exactly once in
the achievement set), and `finalizeScore` awards the 800 win-probability
bonus (0.92 > 0.75), a total equal to base + 800 + achievement bonus, and
an achievement bonus that includes exactly 300 points for "draft_god" on
top of the other unlocked achievements' rewards. -/
theorem c7_draft_god_unlock (gs : GameState)
    (h92 : gs.final_win_probability = 92/100)
    (hnot : "draft_god" ∉ gs.achievements) :
    "draft_god" ∈ (check_achievements gs).1
  ∧ ((check_achievements gs).2).achievements.count "draft_god" = 1
  ∧ (calculate_final_score (check_achievements gs).2).win_probability_bonus = 800
  ∧ (calculate_final_score (check_achievements gs).2).total_score
      = (calculate_final_score (check_achievements gs).2).base_score + 800
        + (calculate_final_score (check_achievements gs).2).achievement_bonus
  ∧ (calculate_final_score (check_achievements gs).2).achievement_bonus
      = 300 + achBonusSum ((((check_achievements gs).2).achievements).filter
          (fun a => a != "draft_god")) := by
  obtain ⟨pre, hach, hpre, hmem, hfwp⟩ :=
    check_achievements_spec gs hnot (by rw [h92]; norm_num)
  have hcount : ((check_achievements gs).2).achievements.count "draft_god" = 1 := by
    rw [hach, List.count_append]
    rw [List.count_eq_zero.mpr hpre]
    simp
  refine ⟨hmem, hcount, ?_, ?_, ?_⟩
  · unfold calculate_final_score
    dsimp only
    rw [hfwp, h92]
    rw [if_pos (by norm_num)]
  · unfold calculate_final_score
    dsimp only
    rw [hfwp, h92]
    rw [if_pos (by norm_num)]
  · unfold calculate_final_score
    dsimp only
    exact achBonusSum_count_one _ hcount

/-! ### C8 — recommend_pick: size, sortedness, and pool provenance -/

/-- C8 (amended): `recommendPick` returns at most 10 entries, sorted
non-increasing by impact, and every returned entity comes from the first
30 entries of the candidate pool; hence when the caller's pool contains
no entity picked or banned by either side (the documented contract, and
what every in-repo caller passes), no returned entity is picked or
banned.  For an arbitrary pool the function itself filters nothing — see
the counterexample. -/
theorem c8_recommend_pick_shape (g : ChampionGraph) (s : DraftState) (team : Nat)
    (pool : List Champ) :
    (recommend_pick g s team pool).length ≤ 10
  ∧ List.Pairwise (fun a b => b.win_rate_impact ≤ a.win_rate_impact)
      (recommend_pick g s team pool)
  ∧ (∀ r ∈ recommend_pick g s team pool, r.champion ∈ pool.take 30)
  ∧ ((∀ c ∈ pool, c ∉ s.team1_picks ∧ c ∉ s.team2_picks
        ∧ c ∉ s.team1_bans ∧ c ∉ s.team2_bans) →
      ∀ r ∈ recommend_pick g s team pool,
        r.champion ∉ s.team1_picks ∧ r.champion ∉ s.team2_picks
        ∧ r.champion ∉ s.team1_bans ∧ r.champion ∉ s.team2_bans) := by
  have hmem : ∀ r ∈ recommend_pick g s team pool, r.champion ∈ pool.take 30 := by
    intro r hr
    unfold recommend_pick at hr
    dsimp only at hr
    have h1 := (List.take_sublist _ _).subset hr
    unfold sortByImpact at h1
    rw [List.mem_mergeSort] at h1
    obtain ⟨c, hc, rfl⟩ := List.mem_map.mp h1
    exact hc
  refine ⟨?_, ?_, hmem, ?_⟩
  · unfold recommend_pick
    dsimp only
    rw [List.length_take]
    exact min_le_left _ _
  · unfold recommend_pick sortByImpact
    dsimp only
    apply List.Pairwise.sublist (List.take_sublist _ _)
    refine List.Pairwise.imp (fun h => of_decide_eq_true h) (List.sorted_mergeSort ?_ ?_ _)
    · intro a b c hab hbc
      exact decide_eq_true (le_trans (of_decide_eq_true hbc) (of_decide_eq_true hab))
    · intro a b
      rcases le_total b.win_rate_impact a.win_rate_impact with h | h
      · rw [Bool.or_eq_true]
        exact Or.inl (decide_eq_true h)
      · rw [Bool.or_eq_true]
        exact Or.inr (decide_eq_true h)
  · intro hdisj r hr
    have hpool : r.champion ∈ pool := (List.take_sublist _ _).subset (hmem r hr)
    exact hdisj _ hpool

/-! ### Witnesses -/

theorem c3_witness :
    ((get_available_actions asst2 { gsPro with difficulty := "hard" }).map (·.recommendations)
      = some ((phaseRecommendations asst2 gsPro).take 1))
  ∧ outcomeBase? (make_move game2 gsEasy "A" 30 0) = some 100
  ∧ (100 : Int) = baseOfRank (chosenRank (difficultyHints gsEasy.difficulty
      (phaseRecommendations game2.assistant gsEasy)) "A") := by
  refine ⟨?_, by with_unfolding_all decide, ?_⟩
  · exact (c3_hints_gate_and_scoring asst2 game2 gsPro "A" 30 0).2.2.1
      (by with_unfolding_all decide)
  · exact (c3_hints_gate_and_scoring asst2 game2 gsEasy "A" 30 0).2.2.2.2 100
      (by with_unfolding_all decide)

theorem c4_witness :
    (make_move game51 gsPro "c50" 30 0).1 = MoveOutcome.error "Invalid champion choice"
  ∧ (make_move game51 gsPro "c50" 30 0).2 = gsPro := by
  have h := c4_reject_iff_outside_truncated_pool game51 gsPro "c50" 30 0 (by decide)
  exact ⟨h.1.mpr (by decide), h.2 (by decide)⟩

theorem c5_witness :
    (make_move game2 gsEasy "A" 30 0).2.current_phase = gsEasy.current_phase + 1
  ∧ outcomeComplete? (make_move game2 gsEasy "A" 30 0).1
      = some (decide (20 ≤ gsEasy.current_phase + 1))
  ∧ (((get_available_actions game2.assistant gsEasy).map (fun a => a.action_type))
      = some "ban" ↔ gsEasy.current_phase ∈ ban_phases) := by
  have h := (c5_phase_machine matchABCWin "easy" game2 gsEasy "A" 30 0).2.1
    (by with_unfolding_all decide)
  have h3 := (c5_phase_machine matchABCWin "easy" game2 gsEasy "A" 30 0).2.2.1
    (by decide)
  exact ⟨h.1, h.2.1, h3.1⟩

theorem c7_witness :
    "draft_god" ∈ (check_achievements gs92).1
  ∧ (calculate_final_score (check_achievements gs92).2).win_probability_bonus = 800 := by
  have h := c7_draft_god_unlock gs92 rfl (by decide)
  exact ⟨h.1, h.2.2.1⟩

theorem c8_witness :
    (recommend_pick emptyGraph stPool 1 ["A", "B"]).length ≤ 10
  ∧ (∀ r ∈ recommend_pick emptyGraph stPool 1 ["A", "B"],
      r.champion ∉ stPool.team1_picks ∧ r.champion ∉ stPool.team2_picks
      ∧ r.champion ∉ stPool.team1_bans ∧ r.champion ∉ stPool.team2_bans) := by
  refine ⟨(c8_recommend_pick_shape emptyGraph stPool 1 ["A", "B"]).1, ?_⟩
  exact (c8_recommend_pick_shape emptyGraph stPool 1 ["A", "B"]).2.2.2 (by decide)

theorem c9_witness :
    50 < (availablePool game51.assistant gsPro).length
  ∧ make_move game51 gsPro ((availablePool game51.assistant gsPro).getD 50 "") 30 0
      = (MoveOutcome.error "Invalid champion choice", gsPro) := by
  refine ⟨by decide, ?_⟩
  exact (c9_truncated_pool_rejects_valid_entity game51 gsPro 30 0 (by decide) (by decide)
    (by decide)).2.2.2

theorem c10_witness :
    (ai_make_move asst2 gsExpert "ban" 0).isSome = false
  ∧ (make_move game2 gsExpert "A" 30 0).1 = MoveOutcome.crash := by
  have h := c10_ai_move_totality asst2 gsExpert "ban" 0 game2 "A" 30
  constructor
  · rw [Bool.eq_false_iff]
    intro hs
    exact absurd (h.1.mp hs).1 (by decide)
  · exact h.2 (by decide) (by decide) (by decide) (by decide) (by decide) (by decide)

end NexusCommander
